import Mathlib

/-!
# Verification of the swanlake audio playback core

Shallow embedding of `src/swanlake/audio_data.py` (the Frame Store,
class `BaseAudioData`) and `src/swanlake/[old]audio_stream.py` (the
Playback Engine, class `AudioStream`), together with theorems settling
the specification claims about them.

Conventions:
* Python `bytes` objects are `List Nat` (byte values); the byte source
  (`BinaryIO`) is a list of bytes plus a cursor.
* Python integers are `Int` (frame indices can go negative); sizes and
  counts that are structurally non-negative are `Nat`.
* Python exceptions are `Except String _`: an `.error` means the call
  raised and the caller's object is left as it was (all functions are
  pure state transformers).
* numpy frame arrays are `List (List Int)`: one inner list of channel
  samples per frame.
-/

namespace Swanlake

/-! ## Python list slicing

Model of `xs[start : stop : step]` for `step ∈ {1, -1}` — the only step
values that occur: the slice step is the playback `direction`, whose
setter admits only `1` and `-1`.  Index adjustment follows CPython's
`PySlice_AdjustIndices`: negative indices count from the end, and
out-of-range indices are clamped to the valid range for the given step
sign.  A `stop` of `none` is Python's omitted bound.
-/

/-- `xs[start : stop : 1]` with Python index adjustment. -/
def pySliceFwd {α : Type} (xs : List α) (start : Int) (stop : Option Int) : List α :=
  let n : Int := xs.length
  let s : Int := if start < 0 then max (start + n) 0 else min start n
  let e : Int :=
    match stop with
    | none => n
    | some e0 => if e0 < 0 then max (e0 + n) 0 else min e0 n
  (xs.take e.toNat).drop s.toNat

/-- `xs[start : stop : -1]` with Python index adjustment: the elements at
indices `stop+1, …, start` (after adjustment), in descending index order. -/
def pySliceRev {α : Type} (xs : List α) (start : Int) (stop : Option Int) : List α :=
  let n : Int := xs.length
  let s : Int := if start < 0 then start + n else min start (n - 1)
  let e : Int :=
    match stop with
    | none => -1
    | some e0 => if e0 < 0 then max (e0 + n) (-1) else min e0 (n - 1)
  ((xs.take (s + 1).toNat).drop (e + 1).toNat).reverse

/-- Python slice `xs[start : stop : step]`, steps `1` and `-1` only. -/
def pySlice {α : Type} (xs : List α) (start : Int) (stop : Option Int) (step : Int) : List α :=
  if step = 1 then pySliceFwd xs start stop
  else if step = -1 then pySliceRev xs start stop
  else []

/-! ## The byte source (`BinaryIO` file object) -/

/-- A seekable byte-oriented source: the bytes plus the read cursor. -/
structure FileObj where
  bytes : List Nat
  cursor : Nat
deriving Repr, DecidableEq

/-- `fileobj.seek(offset, whence)` for `whence ∈ {0, 1}` (absolute /
relative).  Seeking to a negative byte position raises (Python:
`OSError` / `ValueError: negative seek value`); seeking past end of
file is allowed. -/
def fileSeek (f : FileObj) (offset : Int) (whence : Nat) : Except String FileObj :=
  let target : Int := if whence = 0 then offset else (f.cursor : Int) + offset
  if target < 0 then Except.error "OSError: negative seek value"
  else Except.ok { f with cursor := target.toNat }

/-- `fileobj.read(n)`: return up to `n` bytes from the cursor and advance
it by the number of bytes returned.  A negative `n` reads to end of file
(Python `read` semantics). -/
def fileRead (f : FileObj) (n : Int) : List Nat × FileObj :=
  let chunk :=
    if n < 0 then f.bytes.drop f.cursor
    else (f.bytes.drop f.cursor).take n.toNat
  (chunk, { f with cursor := f.cursor + chunk.length })

/-! ## Frame Store: `BaseAudioData` (src/swanlake/audio_data.py) -/

/-- The state of a `BaseAudioData` instance: the byte source and the
audio geometry, plus `position` (`self._position`, a frame number). -/
structure BaseAudioData where
  source : FileObj
  position : Nat
  framesize : Nat
  channels : Nat
  samplewidth : Nat
  framerate : Nat
  framecount : Nat
deriving Repr, DecidableEq

/-- `BaseAudioData.__init__`: position starts at 0 and
`framesize = samplewidth * channels`. -/
def mkBaseAudioData (source : FileObj) (channels samplewidth framerate framecount : Nat) :
    BaseAudioData :=
  { source := source
    position := 0
    framesize := samplewidth * channels
    channels := channels
    samplewidth := samplewidth
    framerate := framerate
    framecount := framecount }

/-- `_FILEOBJ_SEEK_ABSOLUTE = 0` -/
def FILEOBJ_SEEK_ABSOLUTE : Nat := 0

/-- `_FILEOBJ_SEEK_RELATIVE = 1` -/
def FILEOBJ_SEEK_RELATIVE : Nat := 1

/-- `BaseAudioData._move_fileobj_cursor(frame_offset, mode)`.

The source computes `new_pos = frame_offset * framesize`, then evaluates
`if new_pos < 0 or new_pos >= self.framecount: ValueError(...)` — the
`ValueError` is constructed but NOT raised (there is no `raise`), so
control always falls through to `self.source.seek(new_pos, mode)`.
Consequently the bounds check has no effect and is not represented by a
branch here; only the file object's own seek can raise. -/
def move_fileobj_cursor (d : BaseAudioData) (frame_offset : Int) (mode : Nat) :
    Except String BaseAudioData :=
  let new_pos : Int := frame_offset * (d.framesize : Int)
  match fileSeek d.source new_pos mode with
  | Except.error e => Except.error e
  | Except.ok f => Except.ok { d with source := f }

/-- `BaseAudioData.seek(frame_offset)`: relative cursor move. -/
def BaseAudioData.seek (d : BaseAudioData) (frame_offset : Int) : Except String BaseAudioData :=
  move_fileobj_cursor d frame_offset FILEOBJ_SEEK_RELATIVE

/-- `BaseAudioData.jump(frame_offset)`: absolute cursor move. -/
def BaseAudioData.jump (d : BaseAudioData) (frame_offset : Int) : Except String BaseAudioData :=
  move_fileobj_cursor d frame_offset FILEOBJ_SEEK_ABSOLUTE

/-- `BaseAudioData._create_frame_array(byte_data)`.

The source evaluates
`np.ndarray(shape=(len(byte_data // self.framesize), self.channels), channels=..., dtype=..., buffer=byte_data)`.
Evaluating the `shape` argument floor-divides the `bytes` object
`byte_data` by the integer `framesize`, which unconditionally raises
`TypeError: unsupported operand type(s) for //: 'bytes' and 'int'`
(and `np.ndarray` accepts no `channels` keyword either).  So this
method always raises, for every input. -/
def create_frame_array (_d : BaseAudioData) (_byte_data : List Nat) :
    Except String (List (List Int)) :=
  Except.error "TypeError: unsupported operand type(s) for //: bytes and int"

/-- `BaseAudioData._get_chunk_from_infront(chunk_size)`: simply
`self.source.read(chunk_size)` — note `chunk_size` is documented as a
frame count but is passed to the byte-level `read` unscaled, so it is
consumed as a byte count. -/
def get_chunk_from_infront (d : BaseAudioData) (chunk_size : Int) :
    List Nat × BaseAudioData :=
  let (chunk, f) := fileRead d.source chunk_size
  (chunk, { d with source := f })

/-- `BaseAudioData._get_chunk_from_behind(chunk_size)`.

`starting_frame = self.position - chunk_size`; if that is negative the
source sets `chunk_size = chunk_size - starting_frame` (subtracting a
negative number, i.e. growing the chunk by the overshoot) and
`starting_frame = 0`; it then seeks to `starting_frame`, reads
`chunk_size` (bytes), and seeks back to `self.position`. -/
def get_chunk_from_behind (d : BaseAudioData) (chunk_size0 : Int) :
    Except String (List Nat × BaseAudioData) :=
  let starting_frame0 : Int := (d.position : Int) - chunk_size0
  let chunk_size : Int :=
    if starting_frame0 < 0 then chunk_size0 - starting_frame0 else chunk_size0
  let starting_frame : Int := if starting_frame0 < 0 then 0 else starting_frame0
  match move_fileobj_cursor d starting_frame FILEOBJ_SEEK_ABSOLUTE with
  | Except.error e => Except.error e
  | Except.ok d1 =>
    let (chunk, f2) := fileRead d1.source chunk_size
    let d2 : BaseAudioData := { d1 with source := f2 }
    match move_fileobj_cursor d2 (d2.position : Int) FILEOBJ_SEEK_ABSOLUTE with
    | Except.error e => Except.error e
    | Except.ok d3 => Except.ok (chunk, d3)

/-- `BaseAudioData.read(frames)`:
`self._create_frame_array(self._get_chunk_from_infront(frames))`. -/
def BaseAudioData.read (d : BaseAudioData) (frames : Int) :
    Except String (List (List Int) × BaseAudioData) :=
  let (chunk, d1) := get_chunk_from_infront d frames
  match create_frame_array d1 chunk with
  | Except.error e => Except.error e
  | Except.ok arr => Except.ok (arr, d1)

/-- `BaseAudioData.read_left(frames)`:
`self._create_frame_array(self._get_chunk_from_behind(frames))`. -/
def read_left (d : BaseAudioData) (frames : Int) :
    Except String (List (List Int) × BaseAudioData) :=
  match get_chunk_from_behind d frames with
  | Except.error e => Except.error e
  | Except.ok (chunk, d1) =>
    match create_frame_array d1 chunk with
    | Except.error e => Except.error e
    | Except.ok arr => Except.ok (arr, d1)

/-! ## Playback Engine: `AudioStream` (src/swanlake/[old]audio_stream.py)

The engine owns an `AudioData` instance.  The `AudioData` subclass itself
is not under `src/` (only `BaseAudioData` is); the engine uses
`self._audio.data` (the full frame array), `self._audio.framecount` and
`len(self._audio)`.  Modelled from the spec: the decoded asset is its
frame array `data`, with `framecount = len(audio) = data.length` (the
spec's Frame Store geometry: "total frame count" of the decoded asset).

The `sounddevice.OutputStream` collaborator is modelled by one flag
`active`: `stream.stop()` on an active stream deactivates it and invokes
the `finished_callback` (`_stop_playback_callback`), per §6 of the spec
("invokes the finish/cleanup hook exactly once per stream deactivation").
-/

/-- `MODE_STOPPED = 0` -/
def MODE_STOPPED : Nat := 0

/-- `MODE_PAUSED = 1` -/
def MODE_PAUSED : Nat := 1

/-- `MODE_PLAYING = 2` -/
def MODE_PLAYING : Nat := 2

/-- The state of an `AudioStream` instance: the audio frame array and
channel count (see the section comment), the playback state
(`curframe`, `_loop`, `_direction`, `_mode`), and whether the
underlying output stream is active. -/
structure AudioStream where
  data : List (List Int)
  channels : Nat
  curframe : Int
  loop : Bool
  direction : Int
  mode : Nat
  active : Bool
deriving Repr, DecidableEq

/-- `AudioStream.reverse` property: `True if self.direction == -1 else False`. -/
def AudioStream.reverse (s : AudioStream) : Bool :=
  s.direction = -1

/-- `AudioStream.direction` setter: raises `ValueError` unless the new
value is `1` or `-1`; the raise happens before any assignment, so on
error the stored direction (and all other state) is unchanged —
an `.error` result returns no new state. -/
def set_direction (s : AudioStream) (new_val : Int) : Except String AudioStream :=
  if new_val ≠ 1 ∧ new_val ≠ -1 then Except.error "Invalid Direction"
  else Except.ok { s with direction := new_val }

/-- `AudioStream.jump_to_frame(frame)`: raises `ValueError` unless
`0 ≤ frame ≤ self.audio.framecount`, else sets `curframe`. -/
def jump_to_frame (s : AudioStream) (frame : Int) : Except String AudioStream :=
  if frame < 0 ∨ frame > (s.data.length : Int) then
    Except.error "Cannot jump to frame outwith length of audio"
  else Except.ok { s with curframe := frame }

/-- `AudioStream.jump_to_start()`: `jump_to_frame(0)`. -/
def jump_to_start (s : AudioStream) : Except String AudioStream :=
  jump_to_frame s 0

/-- `AudioStream.jump_to_end()`: `jump_to_frame(len(self._audio) - 1)`. -/
def jump_to_end (s : AudioStream) : Except String AudioStream :=
  jump_to_frame s ((s.data.length : Int) - 1)

/-- `AudioStream._set_default_playback_state()`: `jump_to_start()` then
`mode = MODE_STOPPED`.  (`jump_to_frame(0)` never raises, since
`0 ≤ 0 ≤ framecount`; the error arm is unreachable.) -/
def set_default_playback_state (s : AudioStream) : AudioStream :=
  match jump_to_start s with
  | Except.ok s1 => { s1 with mode := MODE_STOPPED }
  | Except.error _ => s

/-- `AudioStream._stop_playback_callback()`: the output stream's finish
hook — resets the playback state unless the mode is `MODE_PAUSED`. -/
def stop_playback_callback (s : AudioStream) : AudioStream :=
  if s.mode ≠ MODE_PAUSED then set_default_playback_state s else s

/-- `AudioStream.pause()`: if the stream is active, set
`mode = MODE_PAUSED` and stop the stream (which deactivates it and fires
the finish hook); otherwise do nothing. -/
def AudioStream.pause (s : AudioStream) : AudioStream :=
  if s.active then
    stop_playback_callback { s with mode := MODE_PAUSED, active := false }
  else s

/-- `AudioStream.stop()`: if the stream is active, set
`mode = MODE_STOPPED` and stop the stream (which deactivates it and fires
the finish hook); otherwise do nothing. -/
def AudioStream.stop (s : AudioStream) : AudioStream :=
  if s.active then
    stop_playback_callback { s with mode := MODE_STOPPED, active := false }
  else s

/-- `get_next_block(frame_array, direction, start_frame, slice_size)`
(the helper nested in `_next_block_callback`).

`raw_end = start + slice_size * direction`; `end` is `raw_end` when it
is within bounds, else `None`.  The source then computes
`end_frame_idx = raw_end if raw_end else len(frame_array) if direction == 1 else 0`
— this tests the TRUTHINESS of `raw_end` (i.e. `raw_end ≠ 0`), not the
bounds check, so an out-of-bounds non-zero `raw_end` (e.g. `-1`) is
returned as the next frame index.  Returns
`(frame_array[start : end : direction], end_frame_idx)`. -/
def get_next_block (frame_array : List (List Int)) (direction : Int)
    (start_frame : Int) (slice_size : Nat) : List (List Int) × Int :=
  let start : Int := start_frame
  let raw_end : Int := start + (slice_size : Int) * direction
  -- `is_within_bounds = lambda indx: 0 <= indx and indx < len(frame_array)`
  let e : Option Int :=
    if 0 ≤ raw_end ∧ raw_end < (frame_array.length : Int) then some raw_end else none
  let end_frame_idx : Int :=
    if raw_end ≠ 0 then raw_end
    else if direction = 1 then (frame_array.length : Int) else 0
  (pySlice frame_array start e direction, end_frame_idx)

/-- The result of one `_next_block_callback` invocation: the filled
output buffer, the engine state afterwards, and whether
`sd.CallbackStop` was raised (the end-of-stream signal consumed by the
scheduler — in the source a control-flow exception, here a flag). -/
structure CallbackResult where
  outdata : List (List Int)
  state : AudioStream
  callbackStop : Bool
deriving Repr, DecidableEq

/-- `AudioStream._next_block_callback(outdata, frames, time, status)`.

`N` is the block size: in the source both `len(outdata)` and the
`slice_size` passed to `get_next_block` are `DEFAULT_BLOCK_SIZE`; the
algorithm is modelled with that common size as a parameter.  The
under-run branch copies the block to the front of the buffer and
zero-fills the rest (`outdata[len:].fill(0)` — zero frames of
`channels` samples), then either wraps `curframe` (loop) or raises
`sd.CallbackStop` (end of stream).  The full branch copies the block
verbatim and sets `curframe = end_block_idx`.  An `.error` means a
Python exception other than `CallbackStop` escaped the callback
(possible: `jump_to_end` on empty audio). -/
def next_block_callback (s : AudioStream) (N : Nat) : Except String CallbackResult :=
  let bd := get_next_block s.data s.direction s.curframe N
  let block_data := bd.1
  let end_block_idx := bd.2
  if block_data.length < N then
    let outdata := block_data ++
      List.replicate (N - block_data.length) (List.replicate s.channels 0)
    if s.loop then
      match (if s.reverse then jump_to_end s else jump_to_start s) with
      | Except.error e => Except.error e
      | Except.ok s1 => Except.ok ⟨outdata, s1, false⟩
    else
      Except.ok ⟨outdata, s, true⟩
  else
    Except.ok ⟨block_data, { s with curframe := end_block_idx }, false⟩

/-! ## Concrete states used by witnesses and counterexamples -/

/-- Eight one-channel source frames `[[0],[1],[2],[3],[4],[5],[6],[7]]`,
playing in reverse from frame 5. -/
def revStream : AudioStream :=
  { data := [[0], [1], [2], [3], [4], [5], [6], [7]]
    channels := 1
    curframe := 5
    loop := false
    direction := -1
    mode := MODE_PLAYING
    active := true }

/-- Three one-channel frames, playing in reverse from frame 2. -/
def shortRevStream : AudioStream :=
  { data := [[0], [1], [2]]
    channels := 1
    curframe := 2
    loop := false
    direction := -1
    mode := MODE_PLAYING
    active := true }

/-- One looping one-channel frame, playing forward from frame 0. -/
def loopStream : AudioStream :=
  { data := [[7]]
    channels := 1
    curframe := 0
    loop := true
    direction := 1
    mode := MODE_PLAYING
    active := true }

/-- A looping, reversed stream over EMPTY audio data. -/
def emptyLoopStream : AudioStream :=
  { data := []
    channels := 1
    curframe := 0
    loop := true
    direction := -1
    mode := MODE_PLAYING
    active := true }

/-- An idle stream (output stream inactive, mode Stopped). -/
def idleStream : AudioStream :=
  { data := [[1], [2]]
    channels := 1
    curframe := 1
    loop := false
    direction := 1
    mode := MODE_STOPPED
    active := false }

/-- A Frame Store over 40 bytes with `channels = 2`, `samplewidth = 2`
(`framesize = 4`) and `framecount = 10`. -/
def smallStore : BaseAudioData :=
  mkBaseAudioData ⟨List.replicate 40 0, 0⟩ 2 2 44100 10

/-- A Frame Store over the bytes `0..9` with `framesize = 1`
(`channels = samplewidth = 1`), `framecount = 10`, positioned at frame 2. -/
def offsetStore : BaseAudioData :=
  { mkBaseAudioData ⟨[0, 1, 2, 3, 4, 5, 6, 7, 8, 9], 0⟩ 1 1 8000 10 with position := 2 }

/-- Output buffer of a callback result, `none` if the callback raised. -/
def cbOut (r : Except String CallbackResult) : Option (List (List Int)) :=
  r.toOption.map CallbackResult.outdata

/-- `curframe` after a callback, `none` if the callback raised. -/
def cbFrame (r : Except String CallbackResult) : Option Int :=
  r.toOption.map (fun c => c.state.curframe)

end Swanlake

namespace Swanlake

/-! ## Supporting lemmas -/

/-- Reverse slice from index 5 down to (exclusive) index 2, on a list of
at least 6 elements: the elements at indices 3..5, reversed. -/
lemma pySliceRev_five_two {α : Type} (xs : List α) (h : 6 ≤ xs.length) :
    pySliceRev xs 5 (some 2) = ((xs.take 6).drop 3).reverse := by
  have hn : (6 : Int) ≤ (xs.length : Int) := by exact_mod_cast h
  have h5 : min (5 : Int) ((xs.length : Int) - 1) = 5 := min_eq_left (by omega)
  have h2 : min (2 : Int) ((xs.length : Int) - 1) = 2 := min_eq_left (by omega)
  simp only [pySliceRev]
  norm_num [h5, h2]
  rfl

/-- The middle window `(xs.take 6).drop 3` of a frame list with at least
six frames, written out elementwise (`getD` with default `[]`). -/
lemma take_six_drop_three (xs : List (List Int)) (h : 6 ≤ xs.length) :
    (xs.take 6).drop 3 = [xs.getD 3 [], xs.getD 4 [], xs.getD 5 []] := by
  rcases xs with _ | ⟨a, _ | ⟨b, _ | ⟨c, _ | ⟨d, _ | ⟨e, _ | ⟨f, t⟩⟩⟩⟩⟩⟩ <;>
    first | rfl | simp at h

/-- `get_next_block` with direction `-1`, start frame 5 and slice size 3
on an array of at least 8 frames: the slice runs from index 5 down to
index 3, and the returned end index is `raw_end = 2`. -/
lemma get_next_block_rev_five (data : List (List Int)) (h : 8 ≤ data.length) :
    get_next_block data (-1) 5 3 = (((data.take 6).drop 3).reverse, 2) := by
  have hn : (8 : Int) ≤ (data.length : Int) := by exact_mod_cast h
  simp only [get_next_block, pySlice]
  norm_num
  rw [if_pos (by omega)]
  exact pySliceRev_five_two data (by omega)

end Swanlake
namespace Swanlake

/-! ## Claim theorems -/

/-- C1 (counterexample): with source frames `[[0],…,[7]]`, direction
`-1`, `curframe = 5` and `N = 3`, the delivered block is NOT the frames
`[2,3,4]` in forward order as claimed — it is the frames `[5,4,3]`
(stepping backward from `curframe`), while `curframe` does become 2. -/
theorem reverse_block_claim_refuted :
    cbOut (next_block_callback revStream 3) ≠ some [[2], [3], [4]] ∧
    cbOut (next_block_callback revStream 3) = some [[5], [4], [3]] ∧
    cbFrame (next_block_callback revStream 3) = some 2 := by
  decide

/-- C1 (amended): for every invocation of the block-fill callback with
direction `-1`, `curframe = 5`, block size `N = 3` and at least 8 source
frames, the output buffer holds source frames 5, 4, 3 in that
(backward-stepping) order, no frame's internal channel samples reversed,
no end-of-stream is signaled, and afterwards `curframe = 2`. -/
theorem reverse_block_steps_backward (data : List (List Int)) (s : AudioStream)
    (h8 : 8 ≤ data.length) (hd : s.data = data) (hc : s.curframe = 5)
    (hdir : s.direction = -1) :
    ∃ r, next_block_callback s 3 = Except.ok r ∧
      r.outdata = [data.getD 5 [], data.getD 4 [], data.getD 3 []] ∧
      r.state.curframe = 2 ∧ r.callbackStop = false := by
  have h6 : 6 ≤ data.length := by omega
  have hblk : get_next_block s.data s.direction s.curframe 3 =
      (((data.take 6).drop 3).reverse, 2) := by
    rw [hd, hdir, hc]; exact get_next_block_rev_five data h8
  have hout : ((data.take 6).drop 3).reverse =
      [data.getD 5 [], data.getD 4 [], data.getD 3 []] := by
    rw [take_six_drop_three data h6]
    rfl
  have hlen : (((data.take 6).drop 3).reverse).length = 3 := by
    rw [hout]
    rfl
  refine ⟨⟨[data.getD 5 [], data.getD 4 [], data.getD 3 []],
          { s with curframe := 2 }, false⟩, ?_, rfl, rfl, rfl⟩
  simp only [next_block_callback, hblk]
  rw [if_neg (by rw [hlen]; omega), hout]

/-- C1 (witness for the amended theorem): the amended statement
instantiated at `revStream`. -/
theorem reverse_block_steps_backward_witness :
    8 ≤ revStream.data.length ∧
    (∃ r, next_block_callback revStream 3 = Except.ok r ∧
      r.outdata = [revStream.data.getD 5 [], revStream.data.getD 4 [],
        revStream.data.getD 3 []] ∧
      r.state.curframe = 2 ∧ r.callbackStop = false) :=
  ⟨by decide, reverse_block_steps_backward revStream.data revStream (by decide) rfl rfl rfl⟩

end Swanlake
namespace Swanlake

/-- C2 (counterexample): on EMPTY audio data with `loop = true` and
direction `-1`, the extracted run (0 frames) is shorter than `N = 1`,
yet the callback does not deliver a padded block and wrap — the
`jump_to_end` inside the loop branch raises a bounds error
(`jump_to_frame(len(audio) - 1)` with `len(audio) = 0`), so no result is
produced at all. -/
theorem underrun_empty_audio_refuted :
    (get_next_block emptyLoopStream.data emptyLoopStream.direction
      emptyLoopStream.curframe 1).1.length < 1 ∧
    emptyLoopStream.loop = true ∧
    (next_block_callback emptyLoopStream 1).toOption = none := by
  decide

/-- C2 (amended): for every block-fill invocation on audio with at least
one frame in which the extracted run is shorter than the block size `N`:
the run is copied to the front of the output buffer and the remainder is
zero-filled; if `loop` is true, `curframe` jumps to the opposite
boundary (last frame when direction is `-1`, frame 0 otherwise) and no
end-of-stream is signaled; if `loop` is false, end-of-stream
(`CallbackStop`) is signaled and the state is untouched.  (On empty
audio the loop/reverse case instead raises a bounds error, per the
counterexample.) -/
theorem underrun_pad_loop_or_stop (s : AudioStream) (N : Nat)
    (hshort : (get_next_block s.data s.direction s.curframe N).1.length < N)
    (hne : 1 ≤ s.data.length) :
    ∃ r, next_block_callback s N = Except.ok r ∧
      r.outdata = (get_next_block s.data s.direction s.curframe N).1 ++
        List.replicate (N - (get_next_block s.data s.direction s.curframe N).1.length)
          (List.replicate s.channels 0) ∧
      (s.loop = true → r.callbackStop = false ∧
        r.state.curframe = (if s.direction = -1 then (s.data.length : Int) - 1 else 0)) ∧
      (s.loop = false → r.callbackStop = true ∧ r.state = s) := by
  have hn1 : (1 : Int) ≤ (s.data.length : Int) := by exact_mod_cast hne
  simp only [next_block_callback]
  rw [if_pos hshort]
  by_cases hl : s.loop
  · rw [if_pos hl]
    by_cases hr : s.direction = -1
    · have hrev : s.reverse = true := by
        simp [AudioStream.reverse, hr]
      rw [hrev]
      simp only [if_true]
      simp only [jump_to_end, jump_to_frame]
      rw [if_neg (by omega)]
      exact ⟨_, rfl, rfl, fun _ => ⟨rfl, by rw [if_pos hr]⟩,
        fun hfalse => absurd hl (by rw [hfalse]; exact Bool.false_ne_true)⟩
    · have hrev : s.reverse = false := by
        simp [AudioStream.reverse, hr]
      rw [hrev]
      simp only [Bool.false_eq_true, if_false]
      simp only [jump_to_start, jump_to_frame]
      rw [if_neg (by omega)]
      exact ⟨_, rfl, rfl, fun _ => ⟨rfl, by rw [if_neg hr]⟩,
        fun hfalse => absurd hl (by rw [hfalse]; exact Bool.false_ne_true)⟩
  · rw [if_neg hl]
    exact ⟨_, rfl, rfl, fun htrue => absurd htrue hl, fun _ => ⟨rfl, rfl⟩⟩

/-- C2 (witness): the amended statement instantiated at `loopStream`
(one frame, forward, looping, `N = 2`). -/
theorem underrun_pad_loop_or_stop_witness :
    (get_next_block loopStream.data loopStream.direction loopStream.curframe 2).1.length < 2 ∧
    1 ≤ loopStream.data.length ∧
    (∃ r, next_block_callback loopStream 2 = Except.ok r ∧
      r.outdata = (get_next_block loopStream.data loopStream.direction loopStream.curframe 2).1 ++
        List.replicate (2 - (get_next_block loopStream.data loopStream.direction
          loopStream.curframe 2).1.length) (List.replicate loopStream.channels 0) ∧
      (loopStream.loop = true → r.callbackStop = false ∧
        r.state.curframe =
          (if loopStream.direction = -1 then (loopStream.data.length : Int) - 1 else 0)) ∧
      (loopStream.loop = false → r.callbackStop = true ∧ r.state = loopStream)) :=
  ⟨by decide, by decide, underrun_pad_loop_or_stop loopStream 2 (by decide) (by decide)⟩

end Swanlake
namespace Swanlake

/-- C3: a single block-fill callback invocation from a valid state
(`curframe = 2 ∈ [0, 3]`, direction `-1`, `N = 3`, three source frames)
delivers a full block and leaves `curframe = -1`: the source tests the
truthiness of `raw_end` instead of its bounds when computing the next
frame index (its own comment says the out-of-bounds end frame should be
`0` for direction `-1`), so the invariant `0 ≤ curframe ≤ framecount`
is violated between callbacks. -/
theorem callback_drives_curframe_negative :
    0 ≤ shortRevStream.curframe ∧
    shortRevStream.curframe ≤ (shortRevStream.data.length : Int) ∧
    cbFrame (next_block_callback shortRevStream 3) = some (-1) := by
  decide

/-- C4: Frame Store cursor movement never raises a bounds violation —
the source constructs the `ValueError` without `raise`.  With
`framecount = 10` and `framesize = 4`, `jump(20)` targets frame 20,
outside `[0, 10)`, yet succeeds silently and moves the byte cursor to
`20 * 4 = 80`. -/
theorem out_of_bounds_jump_not_rejected :
    smallStore.framecount = 10 ∧
    (smallStore.jump 20).toOption.map (fun d => d.source.cursor) = some 80 := by
  decide

/-- C5: `jump(3)` succeeds but leaves the externally visible `position`
at 0 — no mutator ever writes `_position` (the only assignment outside
`__init__` sits in the dead `except` arm of the uncalled
`_move_position`), contradicting the claimed position tracking. -/
theorem jump_does_not_update_position :
    (smallStore.jump 3).toOption.map BaseAudioData.position = some 0 ∧
    (smallStore.jump 3).toOption.map BaseAudioData.position ≠ some 3 := by
  decide

/-- C6: `read(frames)` raises `TypeError` for every store and every
request — `_create_frame_array` floor-divides the bytes object by
`framesize` — so it never returns the claimed `(frames_read, channels)`
array (and the chunk it would have materialized is `frames` bytes, not
`frames` frames). -/
theorem read_always_raises_typeerror (d : BaseAudioData) (frames : Int) :
    d.read frames =
      Except.error "TypeError: unsupported operand type(s) for //: bytes and int" := by
  rfl

/-- C7: `_get_chunk_from_behind` GROWS the chunk by the overshoot
instead of shrinking it: at `position = 2` with `chunk_size = 5`
(`framesize = 1`, ten bytes `0..9`), `starting_frame = -3` is clamped to
0 but `chunk_size` becomes `5 - (-3) = 8`, so 8 frames `0..7` are
returned — overlapping and exceeding the current position, where the
claim allows at most `position = 2` frames. -/
theorem read_left_overshoot_grows_chunk :
    offsetStore.position = 2 ∧
    (get_chunk_from_behind offsetStore 5).toOption.map Prod.fst =
      some [0, 1, 2, 3, 4, 5, 6, 7] := by
  decide

/-- C8: the `direction` setter stores `1` and `-1` and rejects every
other value with a `ValueError` raised before any assignment, so on
rejection no new state is produced and the stored direction is
unchanged. -/
theorem direction_setter_accepts_only_pm_one (s : AudioStream) (v : Int) :
    set_direction s v =
      (if v = 1 ∨ v = -1 then Except.ok { s with direction := v }
       else Except.error "Invalid Direction") := by
  simp only [set_direction]
  by_cases h1 : v = 1
  · simp [h1]
  · by_cases h2 : v = -1
    · simp [h1, h2]
    · simp [h1, h2]

/-- C9: the finish hook leaves the state untouched when the mode is
Paused (preserving the resume position and direction), and otherwise
resets playback defaults: `curframe = 0` and mode Stopped. -/
theorem finish_hook_resets_unless_paused (s : AudioStream) :
    stop_playback_callback s =
      (if s.mode = MODE_PAUSED then s
       else { s with curframe := 0, mode := MODE_STOPPED }) := by
  simp only [stop_playback_callback, set_default_playback_state, jump_to_start, jump_to_frame]
  by_cases h : s.mode = MODE_PAUSED
  · simp [h]
  · simp [h]
    rw [if_neg (by omega)]

/-- C10: `pause()` while the output stream is inactive is a complete
no-op — the whole state (mode, `curframe`, direction, loop) is
returned unchanged, so mode never moves from Stopped to Paused. -/
theorem pause_on_inactive_stream_noop (s : AudioStream) (h : s.active = false) :
    s.pause = s := by
  simp only [AudioStream.pause, h]
  rfl

/-- C10 (witness): `pause()` on the concrete inactive `idleStream`. -/
theorem pause_on_inactive_stream_noop_witness :
    idleStream.active = false ∧ idleStream.pause = idleStream :=
  ⟨rfl, pause_on_inactive_stream_noop idleStream rfl⟩

end Swanlake
